import Mathlib

/-!
Shallow embedding of `src/src/bpsense.c` (the `bpsense` driver of the BART
toolbox): basis pursuit denoising for SENSE/ESPIRiT reconstruction.

The driver's own control flow (shape checks, dimension selection, sampling
pattern setup, scaling, sparsity-operator dispatch, configuration plumbing)
is translated from the source.  Collaborator routines that live in other
files of the repository (the FFT centering `fftmod`, the scaling estimator
`estimate_scaling`, the inner pieces of the ADMM solver) are kept as
abstract parameters bundled in `Externals`, and the two routines whose
behaviour the specification pins down (`estimate_pattern`,
`bpsense_recon`) are modelled from the specification, as marked in their
doc comments.

Complex floats are modelled as pairs of rationals; machine dimensions
(`long dims[DIMS]`) as functions `Fin DIMS → Nat`.
-/

/-- `DIMS` from misc/mri.h: the canonical number of array dimensions. -/
def DIMS : Nat := 16

/-- `COIL_DIM` from misc/mri.h: index of the coil axis. -/
def COIL_DIM : Fin DIMS := ⟨3, by decide⟩

/-- `MAPS_DIM` from misc/mri.h: index of the (ESPIRiT) map axis. -/
def MAPS_DIM : Fin DIMS := ⟨4, by decide⟩

/-- `COIL_FLAG = MD_BIT(COIL_DIM)` from misc/mri.h. -/
def COIL_FLAG : Nat := 2 ^ 3

/-- `MAPS_FLAG = MD_BIT(MAPS_DIM)` from misc/mri.h. -/
def MAPS_FLAG : Nat := 2 ^ 4

/-- `FFT_FLAGS = READ_FLAG|PHS1_FLAG|PHS2_FLAG` (bits 0,1,2): the three
spatial axes. -/
def FFT_FLAGS : Nat := 7

/-- A dimension vector `long dims[DIMS]`. -/
abbrev Dims := Fin DIMS → Nat

/-- A multi-index into an array. -/
abbrev Index := Fin DIMS → Nat

/-- A `complex float` sample, modelled as a pair (re, im) of rationals. -/
abbrev Cpx := ℚ × ℚ

/-- A dense complex multi-dimensional array, modelled extensionally as a
total function from multi-indices to samples (the shape is carried
separately, as in the C code). -/
abbrev Img := Index → Cpx

/-- The all-zero array. -/
def zeroImg : Img := fun _ => (0, 0)

/-- Pointwise complex addition of two arrays. -/
def imgAdd (a b : Img) : Img := fun p => ((a p).1 + (b p).1, (a p).2 + (b p).2)

/-- Pointwise complex subtraction of two arrays. -/
def imgSub (a b : Img) : Img := fun p => ((a p).1 - (b p).1, (a p).2 - (b p).2)

/-- Projection onto real-valued images (the `rvc` real-value constraint). -/
def realProject (a : Img) : Img := fun p => ((a p).1, 0)

/-- C bitwise complement `~f` of a dimension flag set, truncated to the
`DIMS` bit positions that index dimensions. -/
def flagNot (f : Nat) : Nat := Nat.xor (2 ^ DIMS - 1) f

/-- `md_select_dims(N, flags, odims, idims)` from num/multind.c: keep the
sizes of the flagged dimensions and set every other size to 1. -/
def md_select_dims (flags : Nat) (idims : Dims) : Dims :=
  fun i => if Nat.testBit flags (i : Nat) then idims i else 1

/-- A multi-index lies inside the box described by a dimension vector. -/
def inBounds (dims : Dims) (p : Index) : Prop := ∀ i, p i < dims i

instance instDecInBounds (dims : Dims) (p : Index) : Decidable (inBounds dims p) :=
  inferInstanceAs (Decidable (∀ i, p i < dims i))

/-- `md_zsmul(N, dims, dst, src, val)` from num/flpmath.c with a real
scalar: multiply every sample inside the box by the scalar (the in-place
call sites use `dst = src`). -/
def md_zsmul (dims : Dims) (a : Img) (s : ℚ) : Img :=
  fun p => if inBounds dims p then ((a p).1 * s, (a p).2 * s) else a p

/-- Embed one of the first four axes (read, phase1, phase2, coil) into the
full axis index space. -/
def lowAxis (i : Fin 4) : Fin DIMS := Fin.castLE (by decide) i

/-- The shape-compatibility loop of bpsense.c lines 153-159: compare
k-space and sensitivity dimensions on the first four axes only. -/
def dims_match (a b : Dims) : Bool :=
  decide (∀ i : Fin 4, a (lowAxis i) = b (lowAxis i))

/-- The fields of `struct iter_admm_conf` read by the driver. -/
structure IterAdmmConf where
  maxiter : Nat
  rho : ℚ

/-- The analysis linear operators the driver can construct: the identity
(`linop_identity_create`), the TV gradient (`tv_init`), and the wavelet
transform (`wavelet_create`), each recorded with its construction
arguments. -/
inductive LinopKind where
  | identity (dims : Dims)
  | tv (dims : Dims) (flags : Nat)
  | wavelet (dims : Dims) (flags : Nat) (minsize : Dims) (randshift : Bool)

/-- The proximal operators the driver can construct: plain soft threshold
(`prox_thresh_create`) and wavelet soft threshold
(`prox_wavethresh_create`), each recorded with its construction
arguments. -/
inductive ProxKind where
  | thresh (dims : Fin (DIMS + 1) → Nat) (lambda : ℚ) (flags : Nat)
  | wavethresh (dims : Dims) (flags : Nat) (minsize : Dims) (lambda : ℚ) (randshift : Bool)

/-- The fields of `struct bpsense_conf` used by the driver: L2 weight,
tolerance, real-value-constraint flag, the ADMM sub-configuration, and the
book-keeping field recording the sparsity operator instance in use. -/
structure BpsenseConf where
  lambda : ℚ
  eps : ℚ
  rvc : Bool
  iconf : IterAdmmConf
  l1op_obj : Option LinopKind

/-- Number of set bits of a flag set among the `DIMS` dimension bits. -/
def countFlags (flags : Nat) : Nat :=
  ((List.range DIMS).filter (fun i => Nat.testBit flags i)).length

/-- Modelled from the spec: `linop_codomain` for the operators built by the
driver.  `tv_init` (linops/tv.c, not under src/) is the discrete gradient
along the flagged spatial axes; per the spec its codomain is the image
shape extended by one axis holding one gradient component per flagged
axis.  The identity and wavelet cases (codomain = domain, padded with a
trailing 1) are not used by the driver's `prox_thresh_create` call. -/
def linop_codomain : LinopKind → (Fin (DIMS + 1) → Nat)
  | .tv dims flags => fun i => if h : (i : Nat) < DIMS then dims ⟨i, h⟩ else countFlags flags
  | .identity dims => fun i => if h : (i : Nat) < DIMS then dims ⟨i, h⟩ else 1
  | .wavelet dims _ _ _ => fun i => if h : (i : Nat) < DIMS then dims ⟨i, h⟩ else 1

/-- The `minsize` array of bpsense.c lines 231-234: all entries start at 1
and the three spatial entries become `MIN(img_dims[i], 16)`. -/
def minsizeOf (img_dims : Dims) : Dims :=
  fun i =>
    if (i : Nat) = 0 then min (img_dims i) 16
    else if (i : Nat) = 1 then min (img_dims i) 16
    else if (i : Nat) = 2 then min (img_dims i) 16
    else 1

/-- Modelled from the spec: `estimate_pattern` (sense/optcom.c, not under
src/).  Contract per the spec: produce a real-valued pattern with the coil
axis collapsed, where each element is 1 if any coil has nonzero signal at
that location and 0 otherwise; pure, writing only the caller-provided
output buffer. -/
def estimate_pattern (ksp_dims : Dims) (cd : Fin DIMS) (ksp : Img) : Img :=
  fun p =>
    if ∃ c : Fin (ksp_dims cd), ksp (Function.update p cd (c : Nat)) ≠ (0, 0) then (1, 0)
    else (0, 0)

/-- `dims1 = md_select_dims(N, ~(COIL_FLAG|MAPS_FLAG), dims)` (line 180). -/
def dims1Of (d : Dims) : Dims := md_select_dims (flagNot (COIL_FLAG ||| MAPS_FLAG)) d

/-- `img_dims = md_select_dims(N, ~COIL_FLAG, dims)` (line 181). -/
def img_dimsOf (d : Dims) : Dims := md_select_dims (flagNot COIL_FLAG) d

/-- The three coupled ADMM variables of the solver state (spec section
4.5): image estimate `x`, auxiliary sparsity-domain variable `z`, scaled
dual variable `u`. -/
structure AdmmState where
  x : Img
  z : Img
  u : Img

/-- Collaborator routines external to the algorithmic core, kept abstract:
FFT (un)centering, the pluggable scaling estimator, application of the
analysis and proximal operators, the inner linear solve of the x-update,
and the diagnostic comparison metric. -/
structure Externals where
  fftmodC : Dims → Nat → Img → Img
  estimate_scaling : Dims → Img → ℚ
  linopApply : LinopKind → Img → Img
  proxApply : ProxKind → Img → Img
  innerSolve : Img → Img → Img → Img → Img → Img
  metric : Img → Img → ℚ

/-- Modelled from the spec (section 4.5): one ADMM iteration.  The
x-update is an inner linear solve on the measured data (abstracted), with
projection onto real-valued images when the `rvc` flag is set; the
z-update applies the proximal operator to `T x + u`; the dual update is
`u := u + T x - z`. -/
def admm_step (ext : Externals) (conf : BpsenseConf) (maps pattern ksp : Img)
    (l1op : LinopKind) (l1prox : ProxKind) (s : AdmmState) : AdmmState :=
  let x0 := ext.innerSolve maps pattern ksp s.z s.u
  let x := if conf.rvc then realProject x0 else x0
  let Tx := ext.linopApply l1op x
  let z := ext.proxApply l1prox (imgAdd Tx s.u)
  let u := imgAdd s.u (imgSub Tx z)
  ⟨x, z, u⟩

/-- Modelled from the spec: `bpsense_recon` (sense/bprecon.c, not under
src/).  Per the spec (section 4.5) the solver starts from the
caller-initialized image estimate (`x = 0`), `z = T x`, `u = 0`, runs up
to `maxiter` iterations of the transition, writes the final `x` into the
image destination, and uses a supplied ground-truth image only to compute
diagnostic metrics that never feed back into the optimization state.  The
result pair is (final image, diagnostic output). -/
def bpsense_recon (ext : Externals) (conf : BpsenseConf) (dims : Dims) (image0 : Img)
    (maps : Img) (dims1 : Dims) (pattern : Img) (l1op : LinopKind) (l1prox : ProxKind)
    (ksp_dims : Dims) (ksp : Img) (image_truth : Option Img) : Img × List ℚ :=
  let init : AdmmState := ⟨image0, ext.linopApply l1op image0, zeroImg⟩
  let finSt := (admm_step ext conf maps pattern ksp l1op l1prox)^[conf.iconf.maxiter] init
  (finSt.x, (image_truth.map (fun t => ext.metric t finSt.x)).toList)

/-- The inputs of one `main` run, as they stand right after option parsing
and array loading (bpsense.c lines 134-151): the two loaded arrays with
their dimension vectors, the optional external point-spread-function file
(`-p`), the optional ground-truth image (`-F`), the transform choice
(`-t`), and the parsed configuration. -/
structure Inputs where
  ksp_dims : Dims
  dims : Dims
  kspace_data : Img
  sens_maps : Img
  psf : Option (Dims × Img)
  image_truth : Option Img
  use_tvnorm : Bool
  conf : BpsenseConf

/-- Everything the successful branch of `main` computes, in source order:
selected dimension vectors, the sampling pattern and its dimensions, the
k-space after `fftmod` (line 213), the estimated scale and the k-space
actually handed to the solver (lines 220-225), the `minsize` array, the
dispatched sparsity operators (lines 236-249), the configuration value at
the reconstruction call, and the reconstructed image with its diagnostic
output (line 275). -/
structure RunOk where
  dims1 : Dims
  img_dims : Dims
  pat_dims : Dims
  pattern : Img
  kspacePre : Img
  scaling : ℚ
  kspaceScaled : Img
  minsize : Dims
  l1op : LinopKind
  l1prox : ProxKind
  conf : BpsenseConf
  image : Img
  diags : List ℚ

/-- The body of `main` after the two fatal configuration checks
(bpsense.c lines 164-296), translated statement by statement. -/
def mainOk (ext : Externals) (inp : Inputs) : RunOk :=
  let dims1 := dims1Of inp.dims
  let img_dims := img_dimsOf inp.dims
  let pat_dims := match inp.psf with
    | some pf => pf.1
    | none => dims1
  let pattern := match inp.psf with
    | some pf => pf.2
    | none => estimate_pattern inp.ksp_dims COIL_DIM inp.kspace_data
  let ksp1 := ext.fftmodC inp.ksp_dims FFT_FLAGS inp.kspace_data
  let maps1 := ext.fftmodC inp.dims FFT_FLAGS inp.sens_maps
  let scaling := ext.estimate_scaling inp.ksp_dims ksp1
  let ksp2 := if scaling ≠ 0 then md_zsmul inp.ksp_dims ksp1 (1 / scaling) else ksp1
  let minsize := minsizeOf img_dims
  let l1op := if inp.use_tvnorm then LinopKind.tv img_dims FFT_FLAGS
              else LinopKind.identity img_dims
  let l1prox := if inp.use_tvnorm then
                  ProxKind.thresh (linop_codomain (LinopKind.tv img_dims FFT_FLAGS)) 1 0
                else ProxKind.wavethresh img_dims FFT_FLAGS minsize 1 true
  let l1op_obj := if inp.use_tvnorm then LinopKind.tv img_dims FFT_FLAGS
                  else LinopKind.wavelet img_dims FFT_FLAGS minsize false
  let conf2 : BpsenseConf := { inp.conf with l1op_obj := some l1op_obj }
  let image0 : Img := zeroImg
  let rec2 := bpsense_recon ext conf2 inp.dims image0 maps1 dims1 pattern l1op l1prox
    inp.ksp_dims ksp2 inp.image_truth
  { dims1 := dims1
  , img_dims := img_dims
  , pat_dims := pat_dims
  , pattern := pattern
  , kspacePre := ksp1
  , scaling := scaling
  , kspaceScaled := ksp2
  , minsize := minsize
  , l1op := l1op
  , l1prox := l1prox
  , conf := conf2
  , image := rec2.1
  , diags := rec2.2 }

/-- `main` of bpsense.c from line 153 on: the shape-compatibility loop
(lines 153-159, `exit(1)` with a diagnostic on mismatch), the map-count
assertion (line 161, abort with a diagnostic when the k-space map axis
does not hold exactly one map), and otherwise the reconstruction run. -/
def runMain (ext : Externals) (inp : Inputs) : Except String RunOk :=
  if dims_match inp.ksp_dims inp.dims then
    if inp.ksp_dims MAPS_DIM == 1 then
      .ok (mainOk ext inp)
    else
      .error "Assertion failed: 1 == ksp_dims[MAPS_DIM]"
  else
    .error "Dimensions of kspace and sensitivities do not match!"

/-- The output image file is created (`create_cfl`, line 255) exactly on
the branch of `main` that passes both configuration checks. -/
def outputFileCreated : Except String RunOk → Bool
  | .ok _ => true
  | .error _ => false

/-- The solver (`bpsense_recon`, line 275) is invoked exactly on the
branch of `main` that passes both configuration checks. -/
def solverInvoked : Except String RunOk → Bool
  | .ok _ => true
  | .error _ => false

/-! ### Helper lemmas -/

theorem dims_match_iff (a b : Dims) :
    dims_match a b = true ↔ ∀ i : Fin 4, a (lowAxis i) = b (lowAxis i) := by
  unfold dims_match
  exact decide_eq_true_iff

theorem runMain_eq_ok (ext : Externals) (inp : Inputs)
    (h1 : dims_match inp.ksp_dims inp.dims = true)
    (h2 : inp.ksp_dims MAPS_DIM = 1) :
    runMain ext inp = .ok (mainOk ext inp) := by
  unfold runMain
  simp [h1, h2]

theorem bpsense_recon_maxiter_zero (ext : Externals) (conf : BpsenseConf) (dims : Dims)
    (image0 maps : Img) (dims1 : Dims) (pattern : Img) (l1op : LinopKind)
    (l1prox : ProxKind) (ksp_dims : Dims) (ksp : Img) (truth : Option Img)
    (h : conf.iconf.maxiter = 0) :
    (bpsense_recon ext conf dims image0 maps dims1 pattern l1op l1prox ksp_dims ksp truth).1
      = image0 := by
  unfold bpsense_recon
  simp [h]

theorem estimate_pattern_spec (kd : Dims) (cd : Fin DIMS) (ksp : Img) (p : Index) :
    (estimate_pattern kd cd ksp p = (1, 0) ∨ estimate_pattern kd cd ksp p = (0, 0)) ∧
    (estimate_pattern kd cd ksp p = (1, 0) ↔
      ∃ c : Fin (kd cd), ksp (Function.update p cd (c : Nat)) ≠ (0, 0)) := by
  unfold estimate_pattern
  by_cases h : ∃ c : Fin (kd cd), ksp (Function.update p cd (c : Nat)) ≠ (0, 0)
  · rw [if_pos h]
    exact ⟨Or.inl rfl, iff_of_true rfl h⟩
  · rw [if_neg h]
    refine ⟨Or.inr rfl, iff_of_false ?_ h⟩
    intro hc
    have h01 : ((0 : ℚ), (0 : ℚ)).1 = ((1 : ℚ), (0 : ℚ)).1 := congrArg Prod.fst hc
    norm_num at h01

theorem mainOk_kspaceScaled (ext : Externals) (inp : Inputs) :
    (mainOk ext inp).kspaceScaled =
      (if (mainOk ext inp).scaling ≠ 0 then
        md_zsmul inp.ksp_dims (mainOk ext inp).kspacePre (1 / (mainOk ext inp).scaling)
      else (mainOk ext inp).kspacePre) := rfl

/-! ### Example inputs used by the witnesses -/

/-- An `Externals` bundle with benign concrete collaborators. -/
def exExt : Externals :=
  { fftmodC := fun _ _ a => a
  , estimate_scaling := fun _ _ => 2
  , linopApply := fun _ a => a
  , proxApply := fun _ a => a
  , innerSolve := fun _ _ _ _ _ => zeroImg
  , metric := fun _ _ => 0 }

/-- A parsed configuration with a zero iteration budget. -/
def exConf : BpsenseConf :=
  { lambda := 0, eps := 1, rvc := false, iconf := { maxiter := 0, rho := 10 }, l1op_obj := none }

/-- A 4x4x4 single-map dimension vector with two coils. -/
def exKspDims : Dims := fun i => if (i : Nat) < 3 then 4 else if (i : Nat) = 3 then 2 else 1

/-- A dimension vector that disagrees with `exKspDims` on axis 0. -/
def exDimsMismatch : Dims := fun i => if (i : Nat) = 0 then 5 else exKspDims i

/-- A sensitivity dimension vector with two ESPIRiT maps (axis 4 = 2),
matching `exKspDims` on the first four axes. -/
def exDimsTwoMaps : Dims :=
  fun i => if (i : Nat) < 3 then 4 else if (i : Nat) = 3 then 2 else if (i : Nat) = 4 then 2 else 1

/-- A k-space dimension vector with two maps on axis 4 and size 7 on the
higher batch axis 5. -/
def exKspMaps2 : Dims :=
  fun i => if (i : Nat) < 3 then 4 else if (i : Nat) = 3 then 2
    else if (i : Nat) = 4 then 2 else if (i : Nat) = 5 then 7 else 1

/-- Like `exKspMaps2` but with size 3 on the batch axis 5: agrees with it
on the first four axes and on the map axis, differs on axis 5. -/
def exDimsMaps2b : Dims :=
  fun i => if (i : Nat) < 3 then 4 else if (i : Nat) = 3 then 2
    else if (i : Nat) = 4 then 2 else if (i : Nat) = 5 then 3 else 1

/-- A sensitivity dimension vector agreeing with `exKspDims` on the first
four axes but differing on the batch axis 5. -/
def exDimsHigh : Dims := fun i => if (i : Nat) = 5 then 9 else exKspDims i

/-- A well-formed example input: matching shapes, one map, wavelets. -/
def exInp : Inputs :=
  { ksp_dims := exKspDims
  , dims := exKspDims
  , kspace_data := fun _ => (1, 0)
  , sens_maps := fun _ => (1, 0)
  , psf := none
  , image_truth := none
  , use_tvnorm := false
  , conf := exConf }

/-! ### Claims -/

/-- Claim C1: configuration errors are fatal and reported before any
optimization work: whenever the k-space and sensitivity-map dimension
vectors disagree on any of the first four axes (read, phase, slice, coil),
or the k-space map axis holds more than one map, `main` emits a diagnostic
and terminates with a nonzero status before the solver is invoked and
before the output image file is created, so no partial results are
written. -/
theorem config_error_aborts_before_output (ext : Externals) (inp : Inputs)
    (h : (∃ i : Fin 4, inp.ksp_dims (lowAxis i) ≠ inp.dims (lowAxis i)) ∨
      1 < inp.ksp_dims MAPS_DIM) :
    ∃ msg, runMain ext inp = .error msg ∧
      outputFileCreated (runMain ext inp) = false ∧
      solverInvoked (runMain ext inp) = false := by
  have herr : ∃ msg, runMain ext inp = Except.error msg := by
    unfold runMain
    rcases h with ⟨i, hi⟩ | h
    · have hdm : dims_match inp.ksp_dims inp.dims = false := by
        unfold dims_match
        exact decide_eq_false (fun hall => hi (hall i))
      rw [hdm]
      exact ⟨_, rfl⟩
    · cases hdm : dims_match inp.ksp_dims inp.dims with
      | false => exact ⟨_, rfl⟩
      | true =>
        have hne : (inp.ksp_dims MAPS_DIM == 1) = false := by
          simp only [beq_eq_false_iff_ne, ne_eq]
          omega
        rw [hne]
        exact ⟨_, rfl⟩
  obtain ⟨msg, hmsg⟩ := herr
  exact ⟨msg, hmsg, by rw [hmsg]; rfl, by rw [hmsg]; rfl⟩

theorem config_error_aborts_before_output_witness :
    ∃ msg, runMain exExt { exInp with dims := exDimsMismatch } = .error msg ∧
      outputFileCreated (runMain exExt { exInp with dims := exDimsMismatch }) = false ∧
      solverInvoked (runMain exExt { exInp with dims := exDimsMismatch }) = false :=
  config_error_aborts_before_output exExt { exInp with dims := exDimsMismatch } (by decide)

/-- Claim C2, counterexample: with two ESPIRiT maps in the sensitivity
array (axis 4 = 2) and a compatible single-map k-space, the run succeeds
and the created output array keeps size 2 on the map axis, whereas the
claimed coil-and-map-collapsed shape has size 1 there: the map axis is not
reduced to one. -/
theorem output_shape_map_axis_cex :
    (runMain exExt { exInp with dims := exDimsTwoMaps }).toOption.map
        (fun r => r.img_dims MAPS_DIM) = some 2 ∧
      md_select_dims (flagNot (COIL_FLAG ||| MAPS_FLAG)) exDimsTwoMaps MAPS_DIM = 1 :=
  ⟨rfl, rfl⟩

/-- Claim C2 (amended): the output image array created for the
reconstruction has the sensitivity-map shape with the coil axis reduced to
size one; every other axis, the map axis included, keeps its input size. -/
theorem output_shape_coil_collapsed (ext : Externals) (inp : Inputs)
    (h1 : dims_match inp.ksp_dims inp.dims = true)
    (h2 : inp.ksp_dims MAPS_DIM = 1) :
    ∃ r, runMain ext inp = .ok r ∧
      r.img_dims = img_dimsOf inp.dims ∧
      r.img_dims COIL_DIM = 1 ∧
      ∀ i : Fin DIMS, i ≠ COIL_DIM → r.img_dims i = inp.dims i := by
  refine ⟨mainOk ext inp, runMain_eq_ok ext inp h1 h2, rfl, ?_, ?_⟩
  · show img_dimsOf inp.dims COIL_DIM = 1
    unfold img_dimsOf md_select_dims
    rw [show Nat.testBit (flagNot COIL_FLAG) ((COIL_DIM : Fin DIMS) : Nat) = false from by decide]
    simp
  · intro i hi
    show img_dimsOf inp.dims i = inp.dims i
    unfold img_dimsOf md_select_dims
    have hb : Nat.testBit (flagNot COIL_FLAG) ((i : Fin DIMS) : Nat) = true := by
      fin_cases i <;> first | decide | exact absurd rfl hi
    rw [hb]
    simp

theorem output_shape_coil_collapsed_witness :
    ∃ r, runMain exExt exInp = .ok r ∧
      r.img_dims = img_dimsOf exInp.dims ∧
      r.img_dims COIL_DIM = 1 ∧
      ∀ i : Fin DIMS, i ≠ COIL_DIM → r.img_dims i = exInp.dims i :=
  output_shape_coil_collapsed exExt exInp (by decide) (by decide)

/-- Claim C10, counterexample: a pair of inputs that agree on axes 0-3 and
differ only on the higher batch axis 5 (their map axes agree, both holding
two maps) is nevertheless rejected: the map-count assertion reports a
diagnostic and aborts the run, so the program does not proceed to
reconstruction. -/
theorem shape_check_map_axis_cex :
    (∀ i : Fin 4, exKspMaps2 (lowAxis i) = exDimsMaps2b (lowAxis i)) ∧
      exKspMaps2 ⟨5, by decide⟩ ≠ exDimsMaps2b ⟨5, by decide⟩ ∧
      exKspMaps2 MAPS_DIM = exDimsMaps2b MAPS_DIM ∧
      runMain exExt { exInp with ksp_dims := exKspMaps2, dims := exDimsMaps2b } =
        .error "Assertion failed: 1 == ksp_dims[MAPS_DIM]" :=
  ⟨by decide, by decide, by decide, rfl⟩

/-- Claim C10 (amended): the shape-compatibility check inspects only the
first four axes; provided the k-space map axis holds exactly one map
(which a separate assertion requires), any pair of inputs that agrees on
axes 0 through 3 passes the checks and the program proceeds to
reconstruction, no matter how the higher axes differ. -/
theorem shape_check_first_four_axes (ext : Externals) (inp : Inputs)
    (h1 : ∀ i : Fin 4, inp.ksp_dims (lowAxis i) = inp.dims (lowAxis i))
    (h2 : inp.ksp_dims MAPS_DIM = 1) :
    ∃ r, runMain ext inp = .ok r ∧ solverInvoked (runMain ext inp) = true := by
  have hdm : dims_match inp.ksp_dims inp.dims = true := (dims_match_iff _ _).mpr h1
  have hok := runMain_eq_ok ext inp hdm h2
  exact ⟨mainOk ext inp, hok, by rw [hok]; rfl⟩

theorem shape_check_first_four_axes_witness :
    ∃ r, runMain exExt { exInp with dims := exDimsHigh } = .ok r ∧
      solverInvoked (runMain exExt { exInp with dims := exDimsHigh }) = true :=
  shape_check_first_four_axes exExt { exInp with dims := exDimsHigh } (by decide) (by decide)

/-- Claim C3: exactly one scalar scale is estimated from the k-space; when
it is nonzero every k-space sample inside the array is divided by it in
place before the solver runs, and when it is exactly zero the k-space data
is left unchanged. -/
theorem scaling_applied_iff_nonzero (ext : Externals) (inp : Inputs)
    (h1 : dims_match inp.ksp_dims inp.dims = true)
    (h2 : inp.ksp_dims MAPS_DIM = 1) :
    ∃ r, runMain ext inp = .ok r ∧
      r.scaling = ext.estimate_scaling inp.ksp_dims r.kspacePre ∧
      (r.scaling ≠ 0 → ∀ p : Index, inBounds inp.ksp_dims p →
        r.kspaceScaled p = ((r.kspacePre p).1 / r.scaling, (r.kspacePre p).2 / r.scaling)) ∧
      (r.scaling = 0 → r.kspaceScaled = r.kspacePre) := by
  refine ⟨mainOk ext inp, runMain_eq_ok ext inp h1 h2, rfl, ?_, ?_⟩
  · intro hs p hp
    rw [mainOk_kspaceScaled, if_pos hs]
    unfold md_zsmul
    rw [if_pos hp, mul_one_div, mul_one_div]
  · intro hs0
    rw [mainOk_kspaceScaled, if_neg (not_not_intro hs0)]

theorem scaling_applied_iff_nonzero_witness :
    ∃ r, runMain exExt exInp = .ok r ∧
      r.scaling = exExt.estimate_scaling exInp.ksp_dims r.kspacePre ∧
      (r.scaling ≠ 0 → ∀ p : Index, inBounds exInp.ksp_dims p →
        r.kspaceScaled p = ((r.kspacePre p).1 / r.scaling, (r.kspacePre p).2 / r.scaling)) ∧
      (r.scaling = 0 → r.kspaceScaled = r.kspacePre) :=
  scaling_applied_iff_nonzero exExt exInp (by decide) (by decide)

/-- Claim C4: when an external point-spread-function file is supplied the
sampling pattern is taken from it verbatim, with any dimension vector
accepted (no compatibility validation) and the estimator never invoked;
otherwise the pattern is estimated from the raw k-space data with the coil
axis collapsed, each element being 1 if any coil has nonzero signal at
that location and 0 otherwise, written to a fresh buffer while the k-space
data itself is left as loaded. -/
theorem pattern_psf_or_estimated (ext : Externals) (inp : Inputs)
    (h1 : dims_match inp.ksp_dims inp.dims = true)
    (h2 : inp.ksp_dims MAPS_DIM = 1) :
    ∃ r, runMain ext inp = .ok r ∧
      (∀ pd pat, inp.psf = some (pd, pat) → r.pattern = pat ∧ r.pat_dims = pd) ∧
      (inp.psf = none →
        r.pattern = estimate_pattern inp.ksp_dims COIL_DIM inp.kspace_data ∧
        r.pat_dims = dims1Of inp.dims ∧
        r.kspacePre = ext.fftmodC inp.ksp_dims FFT_FLAGS inp.kspace_data ∧
        ∀ p : Index,
          (r.pattern p = (1, 0) ∨ r.pattern p = (0, 0)) ∧
          (r.pattern p = (1, 0) ↔
            ∃ c : Fin (inp.ksp_dims COIL_DIM),
              inp.kspace_data (Function.update p COIL_DIM (c : Nat)) ≠ (0, 0))) := by
  refine ⟨mainOk ext inp, runMain_eq_ok ext inp h1 h2, ?_, ?_⟩
  · intro pd pat hpsf
    constructor
    · show (match inp.psf with
        | some pf => pf.2
        | none => estimate_pattern inp.ksp_dims COIL_DIM inp.kspace_data) = pat
      rw [hpsf]
    · show (match inp.psf with
        | some pf => pf.1
        | none => dims1Of inp.dims) = pd
      rw [hpsf]
  · intro hpsf
    have hpat : (mainOk ext inp).pattern
        = estimate_pattern inp.ksp_dims COIL_DIM inp.kspace_data := by
      show (match inp.psf with
        | some pf => pf.2
        | none => estimate_pattern inp.ksp_dims COIL_DIM inp.kspace_data)
        = estimate_pattern inp.ksp_dims COIL_DIM inp.kspace_data
      rw [hpsf]
    refine ⟨hpat, ?_, rfl, ?_⟩
    · show (match inp.psf with
        | some pf => pf.1
        | none => dims1Of inp.dims) = dims1Of inp.dims
      rw [hpsf]
    · intro p
      rw [hpat]
      have h := estimate_pattern_spec inp.ksp_dims COIL_DIM inp.kspace_data p
      exact ⟨h.1, h.2⟩

theorem pattern_psf_or_estimated_witness :
    ∃ r, runMain exExt exInp = .ok r ∧
      (∀ pd pat, exInp.psf = some (pd, pat) → r.pattern = pat ∧ r.pat_dims = pd) ∧
      (exInp.psf = none →
        r.pattern = estimate_pattern exInp.ksp_dims COIL_DIM exInp.kspace_data ∧
        r.pat_dims = dims1Of exInp.dims ∧
        r.kspacePre = exExt.fftmodC exInp.ksp_dims FFT_FLAGS exInp.kspace_data ∧
        ∀ p : Index,
          (r.pattern p = (1, 0) ∨ r.pattern p = (0, 0)) ∧
          (r.pattern p = (1, 0) ↔
            ∃ c : Fin (exInp.ksp_dims COIL_DIM),
              exInp.kspace_data (Function.update p COIL_DIM (c : Nat)) ≠ (0, 0))) :=
  pattern_psf_or_estimated exExt exInp (by decide) (by decide)

/-- Claim C5: the image estimate handed to the solver is initialized to
the all-zero array, so with an iteration budget of zero the loop body
never executes and the output image is the zero image, for every input
that reaches the solver. -/
theorem zero_maxiter_yields_zero_image (ext : Externals) (inp : Inputs)
    (h1 : dims_match inp.ksp_dims inp.dims = true)
    (h2 : inp.ksp_dims MAPS_DIM = 1)
    (h0 : inp.conf.iconf.maxiter = 0) :
    ∃ r, runMain ext inp = .ok r ∧ r.image = zeroImg := by
  refine ⟨mainOk ext inp, runMain_eq_ok ext inp h1 h2, ?_⟩
  unfold mainOk
  dsimp only
  apply bpsense_recon_maxiter_zero
  exact h0

theorem zero_maxiter_yields_zero_image_witness :
    ∃ r, runMain exExt exInp = .ok r ∧ r.image = zeroImg :=
  zero_maxiter_yields_zero_image exExt exInp (by decide) (by decide) rfl

/-- Claim C6: the sparsity factory dispatch is exhaustive and exclusive on
the transform choice.  With Total Variation selected, the analysis
operator handed to the solver is the discrete gradient over the spatial
axes and the soft-threshold proximal operator is built on that operator's
codomain; with Wavelet selected (the default), the analysis operator
handed to the solver is the identity on image space and wavelet
thresholding with random grid shifts is built into the proximal operator,
the wavelet transform being recorded in the book-keeping field instead. -/
theorem sparsity_dispatch_exhaustive (ext : Externals) (inp : Inputs)
    (h1 : dims_match inp.ksp_dims inp.dims = true)
    (h2 : inp.ksp_dims MAPS_DIM = 1) :
    ∃ r, runMain ext inp = .ok r ∧
      (inp.use_tvnorm = true →
        r.l1op = LinopKind.tv (img_dimsOf inp.dims) FFT_FLAGS ∧
        r.l1prox = ProxKind.thresh
          (linop_codomain (LinopKind.tv (img_dimsOf inp.dims) FFT_FLAGS)) 1 0 ∧
        r.conf.l1op_obj = some r.l1op) ∧
      (inp.use_tvnorm = false →
        r.l1op = LinopKind.identity (img_dimsOf inp.dims) ∧
        r.l1prox = ProxKind.wavethresh (img_dimsOf inp.dims) FFT_FLAGS
          (minsizeOf (img_dimsOf inp.dims)) 1 true ∧
        r.conf.l1op_obj = some (LinopKind.wavelet (img_dimsOf inp.dims) FFT_FLAGS
          (minsizeOf (img_dimsOf inp.dims)) false)) := by
  refine ⟨mainOk ext inp, runMain_eq_ok ext inp h1 h2, ?_, ?_⟩ <;>
    intro htv <;> unfold mainOk <;> rw [htv] <;> exact ⟨rfl, rfl, rfl⟩

theorem sparsity_dispatch_exhaustive_witness :
    ∃ r, runMain exExt exInp = .ok r ∧
      (exInp.use_tvnorm = true →
        r.l1op = LinopKind.tv (img_dimsOf exInp.dims) FFT_FLAGS ∧
        r.l1prox = ProxKind.thresh
          (linop_codomain (LinopKind.tv (img_dimsOf exInp.dims) FFT_FLAGS)) 1 0 ∧
        r.conf.l1op_obj = some r.l1op) ∧
      (exInp.use_tvnorm = false →
        r.l1op = LinopKind.identity (img_dimsOf exInp.dims) ∧
        r.l1prox = ProxKind.wavethresh (img_dimsOf exInp.dims) FFT_FLAGS
          (minsizeOf (img_dimsOf exInp.dims)) 1 true ∧
        r.conf.l1op_obj = some (LinopKind.wavelet (img_dimsOf exInp.dims) FFT_FLAGS
          (minsizeOf (img_dimsOf exInp.dims)) false)) :=
  sparsity_dispatch_exhaustive exExt exInp (by decide) (by decide)

/-- Claim C7: on each of the three spatial axes the minimum wavelet block
size handed to the wavelet transform and proximal constructors equals the
minimum of that axis's image dimension and 16 (clamped to the image size
when the image is smaller), and equals 1 on every other axis, for every
image shape. -/
theorem wavelet_minsize_clamped (ext : Externals) (inp : Inputs)
    (h1 : dims_match inp.ksp_dims inp.dims = true)
    (h2 : inp.ksp_dims MAPS_DIM = 1)
    (h3 : inp.use_tvnorm = false) :
    ∃ r, runMain ext inp = .ok r ∧
      r.minsize = minsizeOf (img_dimsOf inp.dims) ∧
      r.l1prox = ProxKind.wavethresh (img_dimsOf inp.dims) FFT_FLAGS r.minsize 1 true ∧
      r.conf.l1op_obj = some (LinopKind.wavelet (img_dimsOf inp.dims) FFT_FLAGS
        r.minsize false) ∧
      (∀ i : Fin DIMS, (i : Nat) < 3 → r.minsize i = min (img_dimsOf inp.dims i) 16) ∧
      (∀ i : Fin DIMS, 3 ≤ (i : Nat) → r.minsize i = 1) := by
  refine ⟨mainOk ext inp, runMain_eq_ok ext inp h1 h2, rfl, ?_, ?_, ?_, ?_⟩
  · show (if inp.use_tvnorm then
        ProxKind.thresh (linop_codomain (LinopKind.tv (img_dimsOf inp.dims) FFT_FLAGS)) 1 0
      else ProxKind.wavethresh (img_dimsOf inp.dims) FFT_FLAGS
        (minsizeOf (img_dimsOf inp.dims)) 1 true)
      = ProxKind.wavethresh (img_dimsOf inp.dims) FFT_FLAGS (mainOk ext inp).minsize 1 true
    rw [h3]
    rfl
  · show some (if inp.use_tvnorm then LinopKind.tv (img_dimsOf inp.dims) FFT_FLAGS
      else LinopKind.wavelet (img_dimsOf inp.dims) FFT_FLAGS
        (minsizeOf (img_dimsOf inp.dims)) false)
      = some (LinopKind.wavelet (img_dimsOf inp.dims) FFT_FLAGS (mainOk ext inp).minsize false)
    rw [h3]
    rfl
  · intro i hi
    show minsizeOf (img_dimsOf inp.dims) i = min (img_dimsOf inp.dims i) 16
    have hc : (i : Nat) = 0 ∨ (i : Nat) = 1 ∨ (i : Nat) = 2 := by omega
    unfold minsizeOf
    rcases hc with hc | hc | hc <;> rw [hc] <;> rfl
  · intro i hi
    show minsizeOf (img_dimsOf inp.dims) i = 1
    have n0 : (i : Nat) ≠ 0 := by omega
    have n1 : (i : Nat) ≠ 1 := by omega
    have n2 : (i : Nat) ≠ 2 := by omega
    unfold minsizeOf
    rw [if_neg n0, if_neg n1, if_neg n2]

theorem wavelet_minsize_clamped_witness :
    ∃ r, runMain exExt exInp = .ok r ∧
      r.minsize = minsizeOf (img_dimsOf exInp.dims) ∧
      r.l1prox = ProxKind.wavethresh (img_dimsOf exInp.dims) FFT_FLAGS r.minsize 1 true ∧
      r.conf.l1op_obj = some (LinopKind.wavelet (img_dimsOf exInp.dims) FFT_FLAGS
        r.minsize false) ∧
      (∀ i : Fin DIMS, (i : Nat) < 3 → r.minsize i = min (img_dimsOf exInp.dims i) 16) ∧
      (∀ i : Fin DIMS, 3 ≤ (i : Nat) → r.minsize i = 1) :=
  wavelet_minsize_clamped exExt exInp (by decide) (by decide) rfl

/-- Claim C8 (noninterference of the ground-truth image): for a fixed
k-space, sensitivity maps, pattern source, transform choice and
configuration, the reconstructed output image is the same whether or not a
ground-truth image is supplied; the truth image can influence only the
diagnostic output. -/
theorem truth_noninterference (ext : Externals) (kd sd : Dims) (kdata smaps : Img)
    (psf : Option (Dims × Img)) (tv : Bool) (conf : BpsenseConf) (t : Img) :
    Except.map RunOk.image
        (runMain ext ⟨kd, sd, kdata, smaps, psf, some t, tv, conf⟩) =
      Except.map RunOk.image
        (runMain ext ⟨kd, sd, kdata, smaps, psf, none, tv, conf⟩) := by
  unfold runMain
  dsimp only
  cases hdm : dims_match kd sd with
  | false => rfl
  | true =>
    cases hm : kd MAPS_DIM == 1 with
    | false => rfl
    | true => rfl

/-- Claim C9: after option parsing completes, the configuration fields
(L2 weight lambda, tolerance eps, ADMM penalty rho, iteration budget,
real-value-constraint flag) are never written again; the configuration
value handed to the solver differs from the parsed one only in the
book-keeping field recording the sparsity operator instance in use. -/
theorem conf_immutable_after_parse (ext : Externals) (inp : Inputs)
    (h1 : dims_match inp.ksp_dims inp.dims = true)
    (h2 : inp.ksp_dims MAPS_DIM = 1) :
    ∃ r, runMain ext inp = .ok r ∧
      r.conf.lambda = inp.conf.lambda ∧
      r.conf.eps = inp.conf.eps ∧
      r.conf.rvc = inp.conf.rvc ∧
      r.conf.iconf.maxiter = inp.conf.iconf.maxiter ∧
      r.conf.iconf.rho = inp.conf.iconf.rho ∧
      r.conf = { inp.conf with l1op_obj := r.conf.l1op_obj } :=
  ⟨mainOk ext inp, runMain_eq_ok ext inp h1 h2, rfl, rfl, rfl, rfl, rfl, rfl⟩

theorem conf_immutable_after_parse_witness :
    ∃ r, runMain exExt exInp = .ok r ∧
      r.conf.lambda = exInp.conf.lambda ∧
      r.conf.eps = exInp.conf.eps ∧
      r.conf.rvc = exInp.conf.rvc ∧
      r.conf.iconf.maxiter = exInp.conf.iconf.maxiter ∧
      r.conf.iconf.rho = exInp.conf.iconf.rho ∧
      r.conf = { exInp.conf with l1op_obj := r.conf.l1op_obj } :=
  conf_immutable_after_parse exExt exInp (by decide) (by decide)
